import Mathlib

/-! USB GoTemp driver: session and telemetry pipeline.

A shallow embedding of `src/final/gotemp.c` (and of `send_cmd` of
`src/step-5/gotemp.c`).

Conventions of the embedding.

* The driver talks to the kernel only through calls (`kzalloc`,
  `usb_control_msg`, `usb_submit_urb`, ...).  Every driver function is a
  function from the values those calls return to the list of calls it makes,
  in program order, together with its own return value and the session
  fields it writes.  The list of calls is the trace of the execution.
* `u8` values are `Fin 256`; C `int` values are `Int`.
* A pointer field is either NULL (`false`, `none`) or points to the one
  object of its kind that the execution allocated.
* An access outside an allocated object, or through a NULL pointer, is
  undefined behaviour: the embedded function then returns `none`.
* `dev_dbg`, `dev_info`, `dev_err`, `dbg` and `printk` only format text for
  the kernel log and are left out of the trace.  The memory reads that
  compute their arguments are embedded: the hex dump of `read_int_callback`
  reads the first `actual_length` bytes of the transfer buffer, and is
  undefined when `actual_length` exceeds the length of that buffer.
-/

namespace GoTemp

/-! ## Kernel headers -/

/-- A byte, the C types `u8`, `__u8` and `unsigned char`. -/
abbrev u8 := Fin 256

/-- Constants of the kernel headers which the driver uses and does not
define: the `errno` codes (positive, as the C standard requires of them)
and the width in bits of `size_t`, which is at least that of `int`. -/
structure Platform where
  ENOENT : Int
  ENOMEM : Int
  ENODEV : Int
  ECONNRESET : Int
  ESHUTDOWN : Int
  BITS_PER_LONG : Nat
  ENOENT_pos : 0 < ENOENT
  ENOMEM_pos : 0 < ENOMEM
  ENODEV_pos : 0 < ENODEV
  ECONNRESET_pos : 0 < ECONNRESET
  ESHUTDOWN_pos : 0 < ESHUTDOWN
  size_t_wide : 32 ≤ BITS_PER_LONG

/-- The values of `asm-generic/errno-base.h` and `asm-generic/errno.h` on a
64-bit kernel, used to evaluate the driver on concrete inputs. -/
def linux64 : Platform where
  ENOENT := 2
  ENOMEM := 12
  ENODEV := 19
  ECONNRESET := 104
  ESHUTDOWN := 108
  BITS_PER_LONG := 64
  ENOENT_pos := by decide
  ENOMEM_pos := by decide
  ENODEV_pos := by decide
  ECONNRESET_pos := by decide
  ESHUTDOWN_pos := by decide
  size_t_wide := by decide

/-- The values a C `int` can hold. -/
def is_int (r : Int) : Prop := -(2 : Int) ^ 31 ≤ r ∧ r < (2 : Int) ^ 31

instance (r : Int) : Decidable (is_int r) := by unfold is_int; infer_instance

/-- Conversion of an `int` to `size_t`, as the usual arithmetic conversions
do in `retval == sizeof(*pkt)`: reduction modulo `2 ^ BITS_PER_LONG`. -/
def to_size_t (K : Platform) (r : Int) : Nat := (r % (2 : Int) ^ K.BITS_PER_LONG).toNat

/-- The calls the driver makes into the kernel.  A call whose result the
driver looks at carries that result. -/
inductive Call where
  /-- Call `kzalloc(sizeof(struct gotemp))`, with whether it returned memory. -/
  | kzalloc_gdev (ok : Bool)
  /-- Call `usb_get_dev(udev)`: takes one reference on the device. -/
  | usb_get_dev
  /-- Call `kmalloc(size)` of the receive buffer, with whether it returned memory. -/
  | kmalloc_buffer (size : Nat) (ok : Bool)
  /-- Call `usb_alloc_urb(0, GFP_KERNEL)`, with whether it returned a request. -/
  | usb_alloc_urb (ok : Bool)
  /-- Call `usb_fill_int_urb` on the receive request: the endpoint address given
  to `usb_rcvintpipe`, the buffer length and the polling interval. -/
  | usb_fill_int_urb (endpointAddress : u8) (buffer_length : Nat) (interval : u8)
  /-- Call `usb_set_intfdata(interface, p)`; `false` is `p = NULL`. -/
  | usb_set_intfdata (gdev : Bool)
  /-- Allocation of a command packet of `size` bytes. -/
  | kmalloc_pkt (size : Nat) (ok : Bool)
  /-- Call `usb_control_msg` on the send control pipe of endpoint `endpoint`. -/
  | usb_control_msg (endpoint : Nat) (request requesttype value index : Nat)
      (data : List u8) (size : Nat) (timeout : Nat) (ret : Int)
  /-- Call `kfree` of a command packet. -/
  | kfree_pkt
  /-- Call `msleep(msecs)`. -/
  | msleep (msecs : Nat)
  /-- Call `usb_submit_urb` of the receive request, with its result. -/
  | usb_submit_urb (ret : Int)
  /-- Call `device_create_file` of the `temperature` attribute, with its result. -/
  | device_create_file (ret : Int)
  /-- Call `device_remove_file` of the `temperature` attribute. -/
  | device_remove_file
  /-- Call `usb_put_dev(udev)`: drops one reference on the device. -/
  | usb_put_dev
  /-- Call `usb_kill_urb(p)`: cancels the request and waits until its completion
  handler has run; `false` is `p = NULL`, for which it does nothing. -/
  | usb_kill_urb (urb : Bool)
  /-- Call `usb_free_urb(p)`; `false` is `p = NULL`, for which it does nothing. -/
  | usb_free_urb (urb : Bool)
  /-- Call `kfree(p)` of the receive buffer; `false` is `p = NULL`. -/
  | kfree_buffer (buffer : Bool)
  /-- Call `kfree(p)` of the session state; `false` is `p = NULL`. -/
  | kfree_gdev (gdev : Bool)
  deriving DecidableEq

/-! ## Data model -/

/-- The session state, `struct gotemp`. -/
structure gotemp where
  /-- Field `struct usb_device *udev`: `true` once it holds the device handle. -/
  udev : Bool
  temperature : Int
  /-- Field `unsigned char *int_in_buffer`: NULL, or a buffer of that many bytes. -/
  int_in_buffer : Option Nat
  int_in_endpointAddr : u8
  /-- Field `struct urb *int_in_urb`: `false` is NULL. -/
  int_in_urb : Bool
  deriving DecidableEq

def CMD_ID_GET_STATUS : u8 := 0x10
def CMD_ID_WRITE_LOCAL_NV_MEM_1BYTE : u8 := 0x11
def CMD_ID_WRITE_LOCAL_NV_MEM_2BYTES : u8 := 0x12
def CMD_ID_WRITE_LOCAL_NV_MEM_3BYTES : u8 := 0x13
def CMD_ID_WRITE_LOCAL_NV_MEM_4BYTES : u8 := 0x14
def CMD_ID_WRITE_LOCAL_NV_MEM_5BYTES : u8 := 0x15
def CMD_ID_WRITE_LOCAL_NV_MEM_6BYTES : u8 := 0x16
def CMD_ID_READ_LOCAL_NV_MEM : u8 := 0x17
def CMD_ID_START_MEASUREMENTS : u8 := 0x18
def CMD_ID_STOP_MEASUREMENTS : u8 := 0x19
def CMD_ID_INIT : u8 := 0x1A
def CMD_ID_SET_MEASUREMENT_PERIOD : u8 := 0x1B
def CMD_ID_GET_MEASUREMENT_PERIOD : u8 := 0x1C
def CMD_ID_SET_LED_STATE : u8 := 0x1D
def CMD_ID_GET_LED_STATE : u8 := 0x1E
def CMD_ID_GET_SERIAL_NUMBER : u8 := 0x20

/-- The command packet, `struct output_packet` (packed): `u8 cmd` followed
by `u8 params[7]`. -/
structure output_packet where
  cmd : u8
  params : Fin 7 → u8

/-- The bytes of a packed `struct output_packet`, in memory order. -/
def output_packet.bytes (pkt : output_packet) : List u8 :=
  pkt.cmd :: List.ofFn pkt.params

/-- The value of `sizeof(struct output_packet)`: one byte of `cmd` and seven
of `params`, without padding. -/
def sizeof_output_packet : Nat := 1 + 7

/-- An all-zero packet: what `kzalloc` returns, and what
`memset(pkt, 0x00, sizeof(*pkt))` leaves. -/
def zeroed_output_packet : output_packet := ⟨0, fun _ => 0⟩

/-- The receive buffer seen as `struct measurement_packet` (packed):
`u8 measurements_in_packet` at offset 0, `u8 rolling_counter` at offset 1,
then the `__le16` slots `measurement0`, `measurement1`, `measurement2` at
offsets 2, 4 and 6.  A `__le16` is kept as its two bytes in memory order. -/
def offsetof_measurement0 : Nat := 2

/-- Read of a `__le16` field at byte offset `off` of a buffer; `none` when
the field does not lie inside the buffer. -/
def read_le16 (buf : List u8) (off : Nat) : Option (u8 × u8) :=
  match buf.get? off, buf.get? (off + 1) with
  | some b0, some b1 => some (b0, b1)
  | _, _ => none

/-- The kernel helper `le16_to_cpu`: the value of a `__le16` whose bytes in
memory are `x.1`, `x.2`. -/
def le16_to_cpu (x : u8 × u8) : Nat := x.1.val + 256 * x.2.val

/-- The fields of `struct urb` that the completion handler reads. -/
structure urb where
  status : Int
  actual_length : Nat
  /-- The contents of `transfer_buffer`, as many bytes as were allocated. -/
  transfer_buffer : List u8

/-! ## Control channel -/

/-- The function `send_cmd` of `src/final/gotemp.c`.  `pkt_alloc` is whether
`kzalloc` returns memory and `r` is what `usb_control_msg` returns. -/
def send_cmd (K : Platform) (pkt_alloc : Bool) (r : Int) (cmd : u8) : Int × List Call :=
  -- pkt = kzalloc(sizeof(*pkt), GFP_KERNEL); if (!pkt) return -ENOMEM;
  if !pkt_alloc then
    (-K.ENOMEM, [Call.kmalloc_pkt sizeof_output_packet false])
  else
    let pkt : output_packet := zeroed_output_packet
    -- pkt->cmd = cmd;
    let pkt : output_packet := { pkt with cmd := cmd }
    -- retval = usb_control_msg(udev, usb_sndctrlpipe(udev, 0), 0x09, 0x21,
    --                          0x0200, 0x0000, pkt, sizeof(*pkt), 10000);
    let retval : Int := r
    let msg := Call.usb_control_msg 0 0x09 0x21 0x0200 0x0000
      (pkt.bytes.take sizeof_output_packet) sizeof_output_packet 10000 r
    -- if (retval == sizeof(*pkt)) retval = 0;
    let retval : Int := if to_size_t K retval = sizeof_output_packet then 0 else retval
    -- kfree(pkt); return retval;
    (retval, [Call.kmalloc_pkt sizeof_output_packet true, msg, Call.kfree_pkt])

/-- The function `send_cmd` of `src/step-5/gotemp.c`: `kmalloc`, which
returns memory of arbitrary contents `garbage`, followed by `memset`. -/
def step5_send_cmd (K : Platform) (pkt_alloc : Bool) (garbage : output_packet) (r : Int)
    (cmd : u8) : Int × List Call :=
  -- pkt = kmalloc(sizeof(*pkt), GFP_KERNEL); if (!pkt) return -ENOMEM;
  if !pkt_alloc then
    (-K.ENOMEM, [Call.kmalloc_pkt sizeof_output_packet false])
  else
    let pkt : output_packet := garbage
    -- memset(pkt, 0x00, sizeof(*pkt));
    let pkt : output_packet := { pkt with cmd := 0, params := fun _ => 0 }
    -- pkt->cmd = cmd;
    let pkt : output_packet := { pkt with cmd := cmd }
    let retval : Int := r
    let msg := Call.usb_control_msg 0 0x09 0x21 0x0200 0x0000
      (pkt.bytes.take sizeof_output_packet) sizeof_output_packet 10000 r
    -- if (retval == sizeof(*pkt)) retval = 0;
    let retval : Int := if to_size_t K retval = sizeof_output_packet then 0 else retval
    (retval, [Call.kmalloc_pkt sizeof_output_packet true, msg, Call.kfree_pkt])

/-- The packets a trace hands to `usb_control_msg`: the payload bytes and
the length given with them. -/
def control_packets : List Call → List (List u8 × Nat)
  | [] => []
  | Call.usb_control_msg _ _ _ _ _ data size _ _ :: cs => (data, size) :: control_packets cs
  | _ :: cs => control_packets cs

/-! ## Telemetry receiver -/

/-- The byte offset of `rolling_counter` in `struct measurement_packet`. -/
def offsetof_rolling_counter : Nat := 1

/-- The loop `for (i = 0; i < urb->actual_length; ++i) printk("%02x ", data[i]);`
of `read_int_callback`, from the index `i` on with `n` iterations left: the
bytes `data[i]` it reads, `none` when one of them lies outside the buffer. -/
def dump_bytes (data : List u8) : Nat → Nat → Option (List u8)
  | _, 0 => some []
  | i, n + 1 =>
    match data.get? i with
    | none => none
    | some b =>
      match dump_bytes data (i + 1) n with
      | none => none
      | some bs => some (b :: bs)

/-- The completion handler `read_int_callback`.  `gdev` is `urb->context`,
`u` the completed request and `submit_ret` what `usb_submit_urb` returns if
the handler calls it.  The result is the session state the handler leaves
and the calls it made. -/
def read_int_callback (K : Platform) (gdev : gotemp) (u : urb) (submit_ret : Int) :
    Option (gotemp × List Call) :=
  -- switch (urb->status)
  if u.status = 0 then
    -- case 0: break;
    -- for (i = 0; i < urb->actual_length; ++i) printk("%02x ", data[i]);
    match dump_bytes u.transfer_buffer 0 u.actual_length with
    | none => none
    | some _ =>
      -- dev_dbg(..., measurement->rolling_counter, measurement->measurement0);
      match u.transfer_buffer.get? offsetof_rolling_counter with
      | none => none
      | some _ =>
        -- gdev->temperature = le16_to_cpu(measurement->measurement0);
        match read_le16 u.transfer_buffer offsetof_measurement0 with
        | none => none
        | some measurement0 =>
          let gdev : gotemp := { gdev with temperature := (le16_to_cpu measurement0 : Int) }
          -- exit: retval = usb_submit_urb(urb, GFP_ATOMIC);
          some (gdev, [Call.usb_submit_urb submit_ret])
  else if u.status = -K.ECONNRESET ∨ u.status = -K.ENOENT ∨ u.status = -K.ESHUTDOWN then
    -- this urb is terminated, clean up: return;
    some (gdev, [])
  else
    -- default: goto exit;
    -- exit: retval = usb_submit_urb(urb, GFP_ATOMIC);
    some (gdev, [Call.usb_submit_urb submit_ret])

/-- How many times a trace submits the receive request. -/
def submissions : List Call → Nat
  | [] => 0
  | Call.usb_submit_urb _ :: cs => submissions cs + 1
  | _ :: cs => submissions cs

/-- A run of the receiver: the completions `cs` (each with the result of the
resubmission it may make) are handled one after the other, each on the
session state the previous one left.  The result lists the value of
`temperature` after each completion. -/
def temperatures_after (K : Platform) : gotemp → List (urb × Int) → Option (List Int)
  | _, [] => some []
  | gdev, (u, submit_ret) :: cs =>
    match read_int_callback K gdev u submit_ret with
    | none => none
    | some (gdev1, _) =>
      match temperatures_after K gdev1 cs with
      | none => none
      | some ts => some (gdev1.temperature :: ts)

/-- A report of 8 bytes whose first slot holds `m` in little-endian order,
with `count` and `counter` in the first two bytes and zero in the other
slots. -/
def report (count counter : u8) (m : Nat) : List u8 :=
  [count, counter, Fin.ofNat (m % 256), Fin.ofNat (m / 256), 0, 0, 0, 0]

/-! ## Attribute read -/

/-- The character of the decimal digit `d`: `'0' + d` in C. -/
def digit_char (d : Nat) : Char := Char.ofNat (48 + d)

/-- The digit loop of the kernel function `number` of `lib/vsprintf.c` in
base 10: it takes the digits of `n` from the least significant one, each
going in front of the ones already produced, until the quotient is 0 (the
number 0 gives the one digit `0`).  `fuel` bounds the number of digits. -/
def put_dec : Nat → Nat → List Char → List Char
  | 0, _, acc => acc
  | fuel + 1, n, acc =>
    let acc := digit_char (n % 10) :: acc
    if n / 10 = 0 then acc else put_dec fuel (n / 10) acc

/-- The conversion `%d` of the kernel `sprintf`: a minus sign (character 45)
for a negative value, then the decimal digits of the absolute value.  The
fuel given to the digit loop is more than the number of digits. -/
def format_d (x : Int) : List Char :=
  if x < 0 then Char.ofNat 45 :: put_dec ((-x).toNat + 1) (-x).toNat []
  else put_dec (x.toNat + 1) x.toNat []

/-- The attribute read `show_temp`.  `intfdata` is what
`usb_get_intfdata(intf)` returns.  The result is the text written to `buf`
and the return value, the number of characters `sprintf` wrote. -/
def show_temp (intfdata : Option gotemp) : Option (String × Int) :=
  -- struct gotemp *gdev = usb_get_intfdata(intf);
  match intfdata with
  | none => none
  | some gdev =>
    -- return sprintf(buf, "%d\n", gdev->temperature);
    let buf : List Char := format_d gdev.temperature ++ [Char.ofNat 10]
    some (String.mk buf, (buf.length : Int))

/-- The value of a decimal digit character, `none` for any other character. -/
def digit_value (c : Char) : Option Nat :=
  if 48 ≤ c.toNat ∧ c.toNat ≤ 57 then some (c.toNat - 48) else none

/-- The number that the decimal digits `cs` denote after the digits of
`acc`, read from the most significant digit; `none` if a character is not
a decimal digit. -/
def decimal_digits (acc : Nat) : List Char → Option Nat
  | [] => some acc
  | c :: cs =>
    match digit_value c with
    | none => none
    | some d => decimal_digits (10 * acc + d) cs

/-- The integer that a decimal string denotes: an optional minus sign and
at least one decimal digit; `none` for any other text. -/
def decimal_value (cs : List Char) : Option Int :=
  match cs with
  | [] => none
  | c :: rest =>
    if c = Char.ofNat 45 then
      match rest, decimal_digits 0 rest with
      | _ :: _, some n => some (-(n : Int))
      | _, _ => none
    else
      match decimal_digits 0 cs with
      | some n => some (n : Int)
      | none => none

/-- Whether a decimal string is free of leading zeros: a first digit `0` is
the only digit, and no `0` follows a minus sign. -/
def no_leading_zero (cs : List Char) : Bool :=
  match cs with
  | c :: d :: _ =>
    if c = Char.ofNat 48 then false
    else if c = Char.ofNat 45 ∧ d = Char.ofNat 48 then false
    else true
  | _ => true

/-! ## Session lifecycle -/

/-- The fields of `struct usb_endpoint_descriptor` that the driver reads. -/
structure usb_endpoint_descriptor where
  bEndpointAddress : u8
  bmAttributes : u8
  /-- A `__le16`, kept as its two bytes in memory order. -/
  wMaxPacketSize : u8 × u8
  bInterval : u8
  deriving DecidableEq

/-- The kernel helper `usb_endpoint_xfer_int` of `linux/usb/ch9.h`:
`(bmAttributes & USB_ENDPOINT_XFERTYPE_MASK) == USB_ENDPOINT_XFER_INT`,
both constants being 3. -/
def usb_endpoint_xfer_int (epd : usb_endpoint_descriptor) : Bool :=
  epd.bmAttributes.val &&& 0x03 == 0x03

/-- The kernel helper `usb_endpoint_dir_in` of `linux/usb/ch9.h`:
`(bEndpointAddress & USB_ENDPOINT_DIR_MASK) == USB_DIR_IN`, both constants
being 0x80. -/
def usb_endpoint_dir_in (epd : usb_endpoint_descriptor) : Bool :=
  epd.bEndpointAddress.val &&& 0x80 == 0x80

/-- The kernel helper `usb_endpoint_is_int_in` of `linux/usb/ch9.h`. -/
def usb_endpoint_is_int_in (epd : usb_endpoint_descriptor) : Bool :=
  usb_endpoint_xfer_int epd && usb_endpoint_dir_in epd

/-- What the kernel returns to the calls of one execution of `gotemp_probe`,
in program order. -/
structure probe_env where
  /-- Whether `kzalloc` of the session state returns memory. -/
  kzalloc_gdev : Bool
  /-- Whether `kmalloc` of the receive buffer returns memory. -/
  kmalloc_buffer : Bool
  /-- Whether `usb_alloc_urb` returns a request. -/
  usb_alloc_urb : Bool
  /-- Whether the packet of the INIT command is allocated. -/
  init_pkt : Bool
  /-- Result of `usb_control_msg` for the INIT command. -/
  init_msg : Int
  /-- Result of `usb_submit_urb` in `init_dev`. -/
  usb_submit_urb : Int
  /-- Whether the packet of the START_MEASUREMENTS command is allocated. -/
  start_pkt : Bool
  /-- Result of `usb_control_msg` for the START_MEASUREMENTS command. -/
  start_msg : Int
  /-- Result of `device_create_file`. -/
  device_create_file : Int

/-- The function `init_dev`: the calls it makes.  It returns nothing and
looks at no result except to log the one of `usb_submit_urb`. -/
def init_dev (K : Platform) (env : probe_env) : List Call :=
  -- send_cmd(gdev, CMD_ID_INIT);
  (send_cmd K env.init_pkt env.init_msg CMD_ID_INIT).2
  -- msleep(1000);
  ++ [Call.msleep 1000]
  -- retval = usb_submit_urb(gdev->int_in_urb, GFP_KERNEL);
  ++ [Call.usb_submit_urb env.usb_submit_urb]
  -- msleep(3000);
  ++ [Call.msleep 3000]
  -- send_cmd(gdev, CMD_ID_START_MEASUREMENTS);
  ++ (send_cmd K env.start_pkt env.start_msg CMD_ID_START_MEASUREMENTS).2

/-- What `gotemp_probe` leaves: its return value, the calls it made, and the
session it published with `usb_set_intfdata` if it succeeded. -/
structure probe_result where
  retval : Int
  calls : List Call
  intfdata : Option gotemp
  deriving DecidableEq

/-- The local variables of `gotemp_probe` that the endpoint loop writes,
with the calls made so far. -/
structure probe_locals where
  gdev : gotemp
  /-- Variable `struct usb_endpoint_descriptor *endpoint`, initially NULL. -/
  endpoint : Option usb_endpoint_descriptor
  buffer_size : Nat
  calls : List Call

/-- How the endpoint loop of `gotemp_probe` is left. -/
inductive loop_exit where
  /-- By `break` or by exhausting the endpoints. -/
  | next (s : probe_locals)
  /-- By `goto error`. -/
  | goto_error (s : probe_locals)

/-- The loop `for (i = 0; i < iface_desc->desc.bNumEndpoints; ++i)` of
`gotemp_probe`, over the endpoints not yet visited. -/
def find_endpoint (env : probe_env) : List usb_endpoint_descriptor → probe_locals → loop_exit
  | [], s => loop_exit.next s
  | ep :: rest, s =>
    -- endpoint = &iface_desc->endpoint[i].desc;
    let s : probe_locals := { s with endpoint := some ep }
    if usb_endpoint_is_int_in ep then
      -- buffer_size = le16_to_cpu(endpoint->wMaxPacketSize);
      let s : probe_locals := { s with buffer_size := le16_to_cpu ep.wMaxPacketSize }
      -- gdev->int_in_endpointAddr = endpoint->bEndpointAddress;
      let s : probe_locals :=
        { s with gdev := { s.gdev with int_in_endpointAddr := ep.bEndpointAddress } }
      -- gdev->int_in_buffer = kmalloc(buffer_size, GFP_KERNEL);
      let buffer : Option Nat := if env.kmalloc_buffer then some s.buffer_size else none
      let s : probe_locals :=
        { s with gdev := { s.gdev with int_in_buffer := buffer },
                 calls := s.calls ++ [Call.kmalloc_buffer s.buffer_size env.kmalloc_buffer] }
      -- if (!gdev->int_in_buffer) goto error;
      if s.gdev.int_in_buffer.isNone then loop_exit.goto_error s
      -- break;
      else loop_exit.next s
    else find_endpoint env rest s

/-- The code of `gotemp_probe` from the label `error:` on. -/
def probe_error (retval : Int) (gdev : Option gotemp) (calls : List Call) : probe_result :=
  -- usb_set_intfdata(interface, NULL);
  let calls := calls ++ [Call.usb_set_intfdata false]
  -- if (gdev) { usb_free_urb(gdev->int_in_urb); kfree(gdev->int_in_buffer); }
  let calls := match gdev with
    | some g => calls ++ [Call.usb_free_urb g.int_in_urb, Call.kfree_buffer g.int_in_buffer.isSome]
    | none => calls
  -- kfree(gdev); return retval;
  { retval := retval, calls := calls ++ [Call.kfree_gdev gdev.isSome], intfdata := none }

/-- The function `gotemp_probe` (bind) on an interface whose current
alternate setting has the endpoint descriptors `endpoints`. -/
def gotemp_probe (K : Platform) (env : probe_env) (endpoints : List usb_endpoint_descriptor) :
    Option probe_result :=
  -- int retval = -ENOMEM;
  let retval : Int := -K.ENOMEM
  -- gdev = kzalloc(sizeof(*gdev), GFP_KERNEL); if (gdev == NULL) goto error;
  if !env.kzalloc_gdev then
    some (probe_error retval none [Call.kzalloc_gdev false])
  else
    let gdev : gotemp :=
      { udev := false, temperature := 0, int_in_buffer := none, int_in_endpointAddr := 0,
        int_in_urb := false }
    -- gdev->udev = usb_get_dev(udev);
    let gdev : gotemp := { gdev with udev := true }
    let calls := [Call.kzalloc_gdev true, Call.usb_get_dev]
    match find_endpoint env endpoints
        { gdev := gdev, endpoint := none, buffer_size := 0, calls := calls } with
    | loop_exit.goto_error s => some (probe_error retval (some s.gdev) s.calls)
    | loop_exit.next s =>
      -- if (!gdev->int_in_endpointAddr) { retval = -ENODEV; goto error; }
      if s.gdev.int_in_endpointAddr = 0 then
        some (probe_error (-K.ENODEV) (some s.gdev) s.calls)
      else
        -- gdev->int_in_urb = usb_alloc_urb(0, GFP_KERNEL);
        let calls := s.calls ++ [Call.usb_alloc_urb env.usb_alloc_urb]
        -- if (!gdev->int_in_urb) goto error;
        if !env.usb_alloc_urb then
          some (probe_error retval (some s.gdev) calls)
        else
          let gdev : gotemp := { s.gdev with int_in_urb := true }
          -- usb_fill_int_urb(gdev->int_in_urb, udev,
          --                  usb_rcvintpipe(udev, endpoint->bEndpointAddress),
          --                  gdev->int_in_buffer, buffer_size,
          --                  read_int_callback, gdev, endpoint->bInterval);
          match s.endpoint with
          | none => none
          | some endpoint =>
            let calls := calls ++
              [Call.usb_fill_int_urb endpoint.bEndpointAddress s.buffer_size endpoint.bInterval]
            -- usb_set_intfdata(interface, gdev);
            let calls := calls ++ [Call.usb_set_intfdata true]
            -- init_dev(gdev);
            let calls := calls ++ init_dev K env
            -- retval = device_create_file(&interface->dev, &dev_attr_temperature);
            let retval : Int := env.device_create_file
            let calls := calls ++ [Call.device_create_file retval]
            -- if (retval) goto error;
            if retval ≠ 0 then
              some (probe_error retval (some gdev) calls)
            else
              -- return 0;
              some { retval := 0, calls := calls, intfdata := some gdev }

/-- The function `gotemp_disconnect` (unbind): the calls it makes.
`intfdata` is what `usb_get_intfdata(interface)` returns, the session that
`gotemp_probe` published. -/
def gotemp_disconnect (intfdata : Option gotemp) : Option (List Call) :=
  -- gdev = usb_get_intfdata(interface);
  match intfdata with
  | none => none
  | some gdev =>
    some [
      -- device_remove_file(&interface->dev, &dev_attr_temperature);
      Call.device_remove_file,
      -- usb_set_intfdata(interface, NULL);
      Call.usb_set_intfdata false,
      -- usb_put_dev(gdev->udev);
      Call.usb_put_dev,
      -- usb_kill_urb(gdev->int_in_urb);
      Call.usb_kill_urb gdev.int_in_urb,
      -- usb_free_urb(gdev->int_in_urb);
      Call.usb_free_urb gdev.int_in_urb,
      -- kfree(gdev->int_in_buffer);
      Call.kfree_buffer gdev.int_in_buffer.isSome,
      -- kfree(gdev);
      Call.kfree_gdev true]

/-! ## Properties of traces -/

/-- The reference count of the device after a trace, from its value `n`
before: `usb_get_dev` takes one reference and `usb_put_dev` drops one. -/
def device_refcount (n : Int) : List Call → Int
  | [] => n
  | Call.usb_get_dev :: cs => device_refcount (n + 1) cs
  | Call.usb_put_dev :: cs => device_refcount (n - 1) cs
  | _ :: cs => device_refcount n cs

/-- Whether a trace frees the receive buffer while the receive request may
still write into it.  `pending` is whether a request is submitted and not
yet cancelled and drained: a successful `usb_submit_urb` sets it and
`usb_kill_urb` of the request clears it. -/
def frees_buffer_while_pending (pending : Bool) : List Call → Bool
  | [] => false
  | Call.usb_submit_urb ret :: cs => frees_buffer_while_pending (pending || ret == 0) cs
  | Call.usb_kill_urb true :: cs => frees_buffer_while_pending false cs
  | Call.kfree_buffer true :: cs => pending || frees_buffer_while_pending pending cs
  | _ :: cs => frees_buffer_while_pending pending cs

/-- The steps of a bind that are visible outside the driver. -/
inductive Step where
  /-- A control transfer; `cmd` is the first byte of its payload. -/
  | send (cmd : Option u8)
  /-- Submission of the receive request. -/
  | submit
  /-- Creation of the `temperature` attribute. -/
  | create_attribute
  deriving DecidableEq

/-- The visible steps of a trace, in order. -/
def visible_steps : List Call → List Step
  | [] => []
  | Call.usb_control_msg _ _ _ _ _ data _ _ _ :: cs => Step.send data.head? :: visible_steps cs
  | Call.usb_submit_urb _ :: cs => Step.submit :: visible_steps cs
  | Call.device_create_file _ :: cs => Step.create_attribute :: visible_steps cs
  | _ :: cs => visible_steps cs

/-- Whether `a` and `b` each occur exactly once in a trace, `a` before `b`. -/
def once_before (a b : Call) (t : List Call) : Bool :=
  t.count a == 1 && t.count b == 1 && decide (t.indexOf a < t.indexOf b)

/-- The sizes of the receive buffers a trace allocates with success. -/
def buffer_allocations : List Call → List Nat
  | [] => []
  | Call.kmalloc_buffer size true :: cs => size :: buffer_allocations cs
  | _ :: cs => buffer_allocations cs

/-- The receive requests a trace prepares with `usb_fill_int_urb`: endpoint
address, buffer length and polling interval of each. -/
def filled_requests : List Call → List (u8 × Nat × u8)
  | [] => []
  | Call.usb_fill_int_urb addr len interval :: cs => (addr, len, interval) :: filled_requests cs
  | _ :: cs => filled_requests cs

/-! ## Expected results of a bind -/

/-- The session state that `gotemp_probe` has built when the endpoint loop
has stopped at `ep` and the receive buffer is allocated. -/
def session_at (ep : usb_endpoint_descriptor) (urb : Bool) : gotemp :=
  { udev := true, temperature := 0, int_in_buffer := some (le16_to_cpu ep.wMaxPacketSize),
    int_in_endpointAddr := ep.bEndpointAddress, int_in_urb := urb }

/-- The calls of `gotemp_probe` up to the end of `init_dev` when it gets
that far with the endpoint `ep`. -/
def calls_to_init (K : Platform) (env : probe_env) (ep : usb_endpoint_descriptor) : List Call :=
  [Call.kzalloc_gdev true, Call.usb_get_dev,
    Call.kmalloc_buffer (le16_to_cpu ep.wMaxPacketSize) true,
    Call.usb_alloc_urb true,
    Call.usb_fill_int_urb ep.bEndpointAddress (le16_to_cpu ep.wMaxPacketSize) ep.bInterval,
    Call.usb_set_intfdata true] ++ init_dev K env

/-! ## Concrete inputs -/

/-- An interrupt-IN endpoint of address 0x81, maximum packet size 8 and
polling interval 10. -/
def int_in_endpoint : usb_endpoint_descriptor :=
  { bEndpointAddress := 0x81, bmAttributes := 0x03, wMaxPacketSize := (8, 0), bInterval := 10 }

/-- A bulk-OUT endpoint. -/
def bulk_out_endpoint : usb_endpoint_descriptor :=
  { bEndpointAddress := 0x02, bmAttributes := 0x02, wMaxPacketSize := (64, 0), bInterval := 0 }

/-- A second interrupt-IN endpoint, of address 0x83, maximum packet size 16
and polling interval 4. -/
def other_int_in_endpoint : usb_endpoint_descriptor :=
  { bEndpointAddress := 0x83, bmAttributes := 0x03, wMaxPacketSize := (16, 0), bInterval := 4 }

/-- A kernel in which every call of `gotemp_probe` succeeds. -/
def all_succeed : probe_env :=
  { kzalloc_gdev := true, kmalloc_buffer := true, usb_alloc_urb := true, init_pkt := true,
    init_msg := 8, usb_submit_urb := 0, start_pkt := true, start_msg := 8,
    device_create_file := 0 }

/-! ## Helper lemmas -/

/-- An `int` converts to the `size_t` value 8 only if it is 8. -/
theorem to_size_t_eq_eight (K : Platform) (r : Int) (hr : is_int r) :
    to_size_t K r = 8 ↔ r = 8 := by
  unfold to_size_t
  have hw : (2 : Int) ^ 32 ≤ (2 : Int) ^ K.BITS_PER_LONG :=
    pow_le_pow_right₀ (by norm_num) K.size_t_wide
  obtain ⟨hlo, hhi⟩ := hr
  norm_num at hlo hhi hw
  generalize (2 : Int) ^ K.BITS_PER_LONG = m at hw ⊢
  by_cases hneg : r < 0
  · have h1 : r % m = r + m := by
      rw [← Int.add_emod_self]
      exact Int.emod_eq_of_lt (by omega) (by omega)
    rw [h1]
    omega
  · have h1 : r % m = r := Int.emod_eq_of_lt (by omega) (by omega)
    rw [h1]
    omega

/-- The return value of `send_cmd` once its packet is allocated. -/
theorem send_cmd_retval (K : Platform) (r : Int) (hr : is_int r) (cmd : u8) :
    (send_cmd K true r cmd).1 = if r = 8 then 0 else r := by
  have h := to_size_t_eq_eight K r hr
  by_cases h8 : r = 8
  · subst h8
    have h9 : to_size_t K 8 = 8 := h.mpr rfl
    simp [send_cmd, sizeof_output_packet, h9]
  · have : ¬ to_size_t K r = 8 := fun e => h8 (h.mp e)
    simp [send_cmd, sizeof_output_packet, h8, this]

/-- What `send_cmd` returns for each result of the control transfer: 0 when
the transfer reports 8 bytes, and otherwise the result itself, so 0 also
when the transfer reports 0 bytes. -/
theorem send_cmd_success (K : Platform) (r : Int) (hr : is_int r) (cmd : u8) :
    (send_cmd K true r cmd).1 = 0 ↔ (r = 8 ∨ r = 0) := by
  rw [send_cmd_retval K r hr cmd]
  by_cases h8 : r = 8
  · simp [h8]
  · simp [h8]

/-- The hex dump is defined when the bytes it reads lie in the buffer. -/
theorem dump_bytes_some (data : List u8) (n : Nat) :
    ∀ i : Nat, i + n ≤ data.length → ∃ bs, dump_bytes data i n = some bs := by
  induction n with
  | zero => intro i _; exact ⟨[], rfl⟩
  | succ n ih =>
    intro i hi
    obtain ⟨bs, hbs⟩ := ih (i + 1) (by omega)
    have hget : data.get? i = some (data.get ⟨i, by omega⟩) := List.get?_eq_get (by omega)
    exact ⟨data.get ⟨i, by omega⟩ :: bs, by simp only [dump_bytes, hget, hbs]⟩

/-- The hex dump is undefined when it reads beyond the buffer. -/
theorem dump_bytes_none (data : List u8) (n : Nat) :
    ∀ i : Nat, i ≤ data.length → data.length < i + n → dump_bytes data i n = none := by
  induction n with
  | zero => intro i h1 h2; omega
  | succ n ih =>
    intro i _ hi
    cases hd : data.get? i with
    | none => simp only [dump_bytes, hd]
    | some b =>
      have hlt : i < data.length := by
        by_contra hge
        rw [List.get?_eq_none.mpr (by omega)] at hd
        cases hd
      simp only [dump_bytes, hd, ih (i + 1) (by omega) (by omega)]

/-- A successful completion that reports more bytes than the transfer
buffer has reads outside the buffer. -/
theorem read_int_callback_overlong (K : Platform) (gdev : gotemp) (u : urb) (submit_ret : Int)
    (hs : u.status = 0) (hlen : u.transfer_buffer.length < u.actual_length) :
    read_int_callback K gdev u submit_ret = none := by
  simp only [read_int_callback, hs, if_true,
    dump_bytes_none u.transfer_buffer u.actual_length 0 (by omega) (by omega)]

/-- One successful completion on a buffer that holds the first slot and
the bytes reported. -/
theorem read_int_callback_success (K : Platform) (gdev : gotemp) (b0 b1 b2 b3 : u8)
    (rest : List u8) (len : Nat) (submit_ret : Int)
    (hlen : len ≤ (b0 :: b1 :: b2 :: b3 :: rest).length) :
    read_int_callback K gdev ⟨0, len, b0 :: b1 :: b2 :: b3 :: rest⟩ submit_ret
      = some ({ gdev with temperature := (b2.val : Int) + 256 * (b3.val : Int) },
          [Call.usb_submit_urb submit_ret]) := by
  obtain ⟨bs, hbs⟩ := dump_bytes_some (b0 :: b1 :: b2 :: b3 :: rest) len 0 (by omega)
  simp [read_int_callback, hbs, offsetof_rolling_counter, read_le16, offsetof_measurement0,
    le16_to_cpu]

/-- An interrupt-IN endpoint has a non-zero address: its direction bit is set. -/
theorem int_in_address_ne_zero (ep : usb_endpoint_descriptor)
    (h : usb_endpoint_is_int_in ep = true) : ep.bEndpointAddress ≠ 0 := by
  intro h0
  simp [usb_endpoint_is_int_in, usb_endpoint_dir_in, h0] at h

/-- The endpoint loop on a list without interrupt-IN endpoint writes only
the variable `endpoint`. -/
theorem find_endpoint_none (env : probe_env) (eps : List usb_endpoint_descriptor)
    (h : ∀ ep ∈ eps, usb_endpoint_is_int_in ep = false) (s : probe_locals) :
    ∃ e, find_endpoint env eps s = loop_exit.next { s with endpoint := e } := by
  induction eps generalizing s with
  | nil => exact ⟨s.endpoint, rfl⟩
  | cons ep rest ih =>
    have hep := h ep (List.mem_cons_self _ _)
    obtain ⟨e, he⟩ := ih (fun x hx => h x (List.mem_cons_of_mem _ hx)) { s with endpoint := some ep }
    refine ⟨e, ?_⟩
    simp only [find_endpoint, hep]
    simpa using he

/-- The endpoint loop stops at the first interrupt-IN endpoint. -/
theorem find_endpoint_some (env : probe_env) (eps : List usb_endpoint_descriptor)
    (ep : usb_endpoint_descriptor) (h : eps.find? usb_endpoint_is_int_in = some ep)
    (s : probe_locals) :
    find_endpoint env eps s =
      if env.kmalloc_buffer then
        loop_exit.next
          { gdev := { s.gdev with int_in_endpointAddr := ep.bEndpointAddress,
                                  int_in_buffer := some (le16_to_cpu ep.wMaxPacketSize) },
            endpoint := some ep,
            buffer_size := le16_to_cpu ep.wMaxPacketSize,
            calls := s.calls ++ [Call.kmalloc_buffer (le16_to_cpu ep.wMaxPacketSize) true] }
      else
        loop_exit.goto_error
          { gdev := { s.gdev with int_in_endpointAddr := ep.bEndpointAddress,
                                  int_in_buffer := none },
            endpoint := some ep,
            buffer_size := le16_to_cpu ep.wMaxPacketSize,
            calls := s.calls ++ [Call.kmalloc_buffer (le16_to_cpu ep.wMaxPacketSize) false] } := by
  induction eps generalizing s with
  | nil => simp at h
  | cons x rest ih =>
    by_cases hx : usb_endpoint_is_int_in x = true
    · have hxe : x = ep := by simpa [List.find?, hx] using h
      subst hxe
      cases hk : env.kmalloc_buffer <;> simp [find_endpoint, hx, hk]
    · have hx0 : usb_endpoint_is_int_in x = false := by simpa using hx
      have hr : rest.find? usb_endpoint_is_int_in = some ep := by
        simpa [List.find?, hx0] using h
      simp only [find_endpoint, hx0]
      simpa using ih hr { s with endpoint := some x }

/-- The whole of `gotemp_probe` on an interface without interrupt-IN
endpoint, once the session state is allocated. -/
theorem gotemp_probe_no_int_in (K : Platform) (env : probe_env)
    (eps : List usb_endpoint_descriptor) (hg : env.kzalloc_gdev = true)
    (h : ∀ ep ∈ eps, usb_endpoint_is_int_in ep = false) :
    gotemp_probe K env eps = some
      { retval := -K.ENODEV,
        calls := [Call.kzalloc_gdev true, Call.usb_get_dev, Call.usb_set_intfdata false,
          Call.usb_free_urb false, Call.kfree_buffer false, Call.kfree_gdev true],
        intfdata := none } := by
  obtain ⟨e, he⟩ := find_endpoint_none env eps h
    { gdev := { udev := true, temperature := 0, int_in_buffer := none,
                int_in_endpointAddr := 0, int_in_urb := false },
      endpoint := none, buffer_size := 0, calls := [Call.kzalloc_gdev true, Call.usb_get_dev] }
  simp [gotemp_probe, hg, he, probe_error]

/-- The whole of `gotemp_probe` on an interface whose first interrupt-IN
endpoint is `ep`, once the three allocations have succeeded. -/
theorem gotemp_probe_int_in (K : Platform) (env : probe_env)
    (eps : List usb_endpoint_descriptor) (ep : usb_endpoint_descriptor)
    (hg : env.kzalloc_gdev = true) (hb : env.kmalloc_buffer = true)
    (hu : env.usb_alloc_urb = true)
    (h : eps.find? usb_endpoint_is_int_in = some ep) :
    gotemp_probe K env eps = some
      (if env.device_create_file ≠ 0 then
        { retval := env.device_create_file,
          calls := calls_to_init K env ep ++ [Call.device_create_file env.device_create_file,
            Call.usb_set_intfdata false, Call.usb_free_urb true, Call.kfree_buffer true,
            Call.kfree_gdev true],
          intfdata := none }
      else
        { retval := 0,
          calls := calls_to_init K env ep ++ [Call.device_create_file env.device_create_file],
          intfdata := some (session_at ep true) }) := by
  have hne : ep.bEndpointAddress ≠ 0 := int_in_address_ne_zero ep (List.find?_some h)
  have hf := find_endpoint_some env eps ep h
    { gdev := { udev := true, temperature := 0, int_in_buffer := none,
                int_in_endpointAddr := 0, int_in_urb := false },
      endpoint := none, buffer_size := 0, calls := [Call.kzalloc_gdev true, Call.usb_get_dev] }
  rw [hb] at hf
  simp only [if_true] at hf
  by_cases hc : env.device_create_file = 0
  · simp [gotemp_probe, hg, hu, hf, hne, hc, calls_to_init, session_at]
  · simp [gotemp_probe, hg, hu, hf, hne, hc, calls_to_init, session_at, probe_error]

/-- In `gotemp_disconnect` the receive buffer is freed only after the
request has been cancelled and drained, whether or not a request was
pending when it started. -/
theorem gotemp_disconnect_frees_buffer_after_kill (gdev : gotemp) (pending : Bool)
    (hu : gdev.int_in_urb = true) :
    (gotemp_disconnect (some gdev)).map (frees_buffer_while_pending pending) = some false := by
  obtain ⟨udev, t, buf, addr, u⟩ := gdev
  simp only at hu
  subst hu
  cases buf <;> cases pending <;> rfl

/-- The visible steps of a trace made of two parts. -/
theorem visible_steps_append (a b : List Call) :
    visible_steps (a ++ b) = visible_steps a ++ visible_steps b := by
  induction a with
  | nil => rfl
  | cons c cs ih => cases c <;> simp [visible_steps, ih]

/-- The visible steps of `send_cmd`: one transfer of the command, or none
when the packet is not allocated. -/
theorem visible_steps_send_cmd (K : Platform) (pkt_alloc : Bool) (r : Int) (cmd : u8) :
    visible_steps (send_cmd K pkt_alloc r cmd).2
      = if pkt_alloc then [Step.send (some cmd)] else [] := by
  cases pkt_alloc <;>
    simp [send_cmd, visible_steps, output_packet.bytes, sizeof_output_packet]

/-- The order of the calls in the trace of `gotemp_disconnect`, for either
value of the two pointers it passes on. -/
theorem disconnect_trace_order :
    ∀ u b : Bool,
      once_before Call.device_remove_file (Call.usb_set_intfdata false)
          [Call.device_remove_file, Call.usb_set_intfdata false, Call.usb_put_dev,
            Call.usb_kill_urb u, Call.usb_free_urb u, Call.kfree_buffer b,
            Call.kfree_gdev true] = true
      ∧ once_before (Call.usb_set_intfdata false) (Call.usb_kill_urb u)
          [Call.device_remove_file, Call.usb_set_intfdata false, Call.usb_put_dev,
            Call.usb_kill_urb u, Call.usb_free_urb u, Call.kfree_buffer b,
            Call.kfree_gdev true] = true
      ∧ once_before Call.device_remove_file (Call.usb_kill_urb u)
          [Call.device_remove_file, Call.usb_set_intfdata false, Call.usb_put_dev,
            Call.usb_kill_urb u, Call.usb_free_urb u, Call.kfree_buffer b,
            Call.kfree_gdev true] = true
      ∧ once_before (Call.usb_kill_urb u) (Call.kfree_buffer b)
          [Call.device_remove_file, Call.usb_set_intfdata false, Call.usb_put_dev,
            Call.usb_kill_urb u, Call.usb_free_urb u, Call.kfree_buffer b,
            Call.kfree_gdev true] = true
      ∧ once_before (Call.usb_kill_urb u) (Call.kfree_gdev true)
          [Call.device_remove_file, Call.usb_set_intfdata false, Call.usb_put_dev,
            Call.usb_kill_urb u, Call.usb_free_urb u, Call.kfree_buffer b,
            Call.kfree_gdev true] = true := by
  decide

/-- The reference count after a trace made of two parts. -/
theorem device_refcount_append (n : Int) (a b : List Call) :
    device_refcount n (a ++ b) = device_refcount (device_refcount n a) b := by
  induction a generalizing n with
  | nil => rfl
  | cons c cs ih => cases c <;> simp [device_refcount, ih]

/-- The function `init_dev` takes and drops no reference on the device. -/
theorem device_refcount_init_dev (K : Platform) (env : probe_env) (n : Int) :
    device_refcount n (init_dev K env) = n := by
  cases hi : env.init_pkt <;> cases hs : env.start_pkt <;>
    simp [init_dev, send_cmd, hi, hs, device_refcount]

/-- Every execution of `gotemp_probe` returns, and whenever the session
state was allocated it leaves the device with one reference more than
before, whether it succeeds or fails. -/
theorem gotemp_probe_refcount (K : Platform) (env : probe_env)
    (eps : List usb_endpoint_descriptor) (n : Int) :
    ∃ r, gotemp_probe K env eps = some r
      ∧ device_refcount n r.calls = if env.kzalloc_gdev then n + 1 else n := by
  cases hg : env.kzalloc_gdev with
  | false =>
    have h : gotemp_probe K env eps
        = some (probe_error (-K.ENOMEM) none [Call.kzalloc_gdev false]) := by
      simp [gotemp_probe, hg]
    exact ⟨_, h, by simp [probe_error, device_refcount]⟩
  | true =>
    cases hfind : eps.find? usb_endpoint_is_int_in with
    | none =>
      have hno : ∀ ep ∈ eps, usb_endpoint_is_int_in ep = false := by
        intro ep hep
        simpa using List.find?_eq_none.mp hfind ep hep
      exact ⟨_, gotemp_probe_no_int_in K env eps hg hno, by simp [device_refcount]⟩
    | some ep =>
      have hne : ep.bEndpointAddress ≠ 0 := int_in_address_ne_zero ep (List.find?_some hfind)
      have hf := find_endpoint_some env eps ep hfind
        { gdev := { udev := true, temperature := 0, int_in_buffer := none,
                    int_in_endpointAddr := 0, int_in_urb := false },
          endpoint := none, buffer_size := 0,
          calls := [Call.kzalloc_gdev true, Call.usb_get_dev] }
      cases hb : env.kmalloc_buffer with
      | false =>
        rw [hb] at hf
        have h : gotemp_probe K env eps
            = some (probe_error (-K.ENOMEM)
                (some { udev := true, temperature := 0, int_in_buffer := none,
                        int_in_endpointAddr := ep.bEndpointAddress, int_in_urb := false })
                [Call.kzalloc_gdev true, Call.usb_get_dev,
                  Call.kmalloc_buffer (le16_to_cpu ep.wMaxPacketSize) false]) := by
          simp [gotemp_probe, hg, hf]
        exact ⟨_, h, by simp [probe_error, device_refcount]⟩
      | true =>
        cases hu : env.usb_alloc_urb with
        | false =>
          rw [hb] at hf
          have h : gotemp_probe K env eps
              = some (probe_error (-K.ENOMEM) (some (session_at ep false))
                  [Call.kzalloc_gdev true, Call.usb_get_dev,
                    Call.kmalloc_buffer (le16_to_cpu ep.wMaxPacketSize) true,
                    Call.usb_alloc_urb false]) := by
            simp [gotemp_probe, hg, hf, hne, hu, session_at]
          exact ⟨_, h, by simp [probe_error, device_refcount]⟩
        | true =>
          refine ⟨_, gotemp_probe_int_in K env eps ep hg hb hu hfind, ?_⟩
          by_cases hc : env.device_create_file = 0
          · simp [hc, calls_to_init, device_refcount_append, device_refcount_init_dev,
              device_refcount]
          · simp [hc, calls_to_init, device_refcount_append, device_refcount_init_dev,
              device_refcount]

/-- A digit character denotes its digit. -/
theorem digit_value_digit_char (d : Nat) (hd : d < 10) : digit_value (digit_char d) = some d := by
  interval_cases d <;> decide

/-- A digit character is not the minus sign. -/
theorem digit_char_ne_minus (d : Nat) (hd : d < 10) : digit_char d ≠ Char.ofNat 45 := by
  interval_cases d <;> decide

/-- Only the digit 0 has the character `0`. -/
theorem digit_char_eq_zero (d : Nat) (hd : d < 10) (h : digit_char d = Char.ofNat 48) : d = 0 := by
  interval_cases d <;> first | rfl | (exact absurd h (by decide))

/-- The digit loop puts in front of `acc` digits that denote `n`. -/
theorem decimal_digits_put_dec (fuel : Nat) :
    ∀ n : Nat, n < fuel → ∃ k : Nat, ∀ (a : Nat) (acc : List Char),
      decimal_digits a (put_dec fuel n acc) = decimal_digits (a * 10 ^ k + n) acc := by
  induction fuel with
  | zero => intro n hn; omega
  | succ fuel ih =>
    intro n hn
    by_cases hq : n / 10 = 0
    · refine ⟨1, fun a acc => ?_⟩
      have hlt : n % 10 < 10 := Nat.mod_lt _ (by norm_num)
      have hmod : n % 10 = n := by omega
      simp only [put_dec, hq, if_true, decimal_digits, digit_value_digit_char _ hlt]
      congr 1
      omega
    · obtain ⟨k, hk⟩ := ih (n / 10) (by omega)
      refine ⟨k + 1, fun a acc => ?_⟩
      have hlt : n % 10 < 10 := Nat.mod_lt _ (by norm_num)
      simp only [put_dec, hq, if_false, hk, decimal_digits, digit_value_digit_char _ hlt]
      congr 1
      have h10 : a * 10 ^ (k + 1) = 10 * (a * 10 ^ k) := by ring
      omega

/-- The digit loop yields at least one digit, and a first digit 0 only for
the number 0, which it writes as the single digit `0`. -/
theorem put_dec_head (fuel : Nat) :
    ∀ (n : Nat) (acc : List Char), n < fuel →
      ∃ d cs, put_dec fuel n acc = digit_char d :: cs ∧ d < 10 ∧ (d = 0 → n = 0 ∧ cs = acc) := by
  induction fuel with
  | zero => intro n acc hn; omega
  | succ fuel ih =>
    intro n acc hn
    by_cases hq : n / 10 = 0
    · refine ⟨n % 10, acc, by simp [put_dec, hq], Nat.mod_lt _ (by norm_num), fun h => ⟨?_, rfl⟩⟩
      omega
    · obtain ⟨d, cs, h1, h2, h3⟩ := ih (n / 10) (digit_char (n % 10) :: acc) (by omega)
      refine ⟨d, cs, by simp [put_dec, hq, h1], h2, fun h => ?_⟩
      exact absurd (h3 h).1 hq

/-- The text of `%d` denotes the value formatted, has no leading zero, and
starts with a minus sign exactly for a negative value. -/
theorem format_d_decimal (x : Int) :
    decimal_value (format_d x) = some x
      ∧ no_leading_zero (format_d x) = true
      ∧ ((format_d x).head? = some (Char.ofNat 45) ↔ x < 0) := by
  by_cases hx : x < 0
  · obtain ⟨k, hk⟩ := decimal_digits_put_dec ((-x).toNat + 1) (-x).toNat (by omega)
    obtain ⟨d, cs, h1, h2, h3⟩ := put_dec_head ((-x).toNat + 1) (-x).toNat [] (by omega)
    have hd0 : d ≠ 0 := by
      intro h0
      have := (h3 h0).1
      omega
    have hne : digit_char d ≠ Char.ofNat 48 := fun h => hd0 (digit_char_eq_zero d h2 h)
    have hval : decimal_digits 0 (put_dec ((-x).toNat + 1) (-x).toNat []) = some (-x).toNat := by
      rw [hk 0 []]
      simp [decimal_digits]
    refine ⟨?_, ?_, ?_⟩
    · have hv := hval
      rw [h1] at hv
      have hback : -((-x).toNat : Int) = x := by omega
      simp only [format_d, hx, if_true, decimal_value, h1, hv, hback]
    · simp only [format_d, hx, if_true, h1, no_leading_zero]
      have h45 : Char.ofNat 45 ≠ Char.ofNat 48 := by decide
      simp [h45, hne]
    · simp [format_d, hx]
  · obtain ⟨k, hk⟩ := decimal_digits_put_dec (x.toNat + 1) x.toNat (by omega)
    obtain ⟨d, cs, h1, h2, h3⟩ := put_dec_head (x.toNat + 1) x.toNat [] (by omega)
    have hminus := digit_char_ne_minus d h2
    have hval : decimal_digits 0 (put_dec (x.toNat + 1) x.toNat []) = some x.toNat := by
      rw [hk 0 []]
      simp [decimal_digits]
    refine ⟨?_, ?_, ?_⟩
    · have hv := hval
      rw [h1] at hv
      have hback : (x.toNat : Int) = x := by omega
      simp only [format_d, hx, if_false, h1, decimal_value, hminus, hv, hback]
    · simp only [format_d, hx, if_false, h1]
      cases cs with
      | nil => rfl
      | cons c cs =>
        have hd0 : d ≠ 0 := by
          intro h0
          have := (h3 h0).2
          cases this
        have hne : digit_char d ≠ Char.ofNat 48 := fun h => hd0 (digit_char_eq_zero d h2 h)
        simp [no_leading_zero, hne, hminus]
    · simp only [format_d, hx, if_false, h1, List.head?_cons, Option.some.injEq, hminus]

/-- A digit character is not the newline. -/
theorem digit_char_ne_newline (d : Nat) (hd : d < 10) : digit_char d ≠ Char.ofNat 10 := by
  interval_cases d <;> decide

/-- The digit loop adds digit characters only. -/
theorem put_dec_chars (fuel : Nat) :
    ∀ (n : Nat) (acc : List Char), ∀ c ∈ put_dec fuel n acc,
      c ∈ acc ∨ ∃ d, d < 10 ∧ c = digit_char d := by
  induction fuel with
  | zero => intro n acc c hc; exact Or.inl hc
  | succ fuel ih =>
    intro n acc c hc
    have hlt : n % 10 < 10 := Nat.mod_lt _ (by norm_num)
    by_cases hq : n / 10 = 0
    · simp only [put_dec, hq, if_true, List.mem_cons] at hc
      rcases hc with h | h
      · exact Or.inr ⟨_, hlt, h⟩
      · exact Or.inl h
    · simp only [put_dec, hq, if_false] at hc
      rcases ih (n / 10) _ c hc with h | h
      · rcases List.mem_cons.mp h with h | h
        · exact Or.inr ⟨_, hlt, h⟩
        · exact Or.inl h
      · exact Or.inr h

/-- The text of `%d` holds no newline. -/
theorem format_d_no_newline (x : Int) : Char.ofNat 10 ∉ format_d x := by
  have hdig : ∀ fuel n, Char.ofNat 10 ∉ put_dec fuel n [] := by
    intro fuel n hmem
    rcases put_dec_chars fuel n [] _ hmem with h | ⟨d, hd, h⟩
    · cases h
    · exact digit_char_ne_newline d hd h.symm
  by_cases hx : x < 0
  · simp only [format_d, hx, if_true, List.mem_cons, not_or]
    exact ⟨by decide, hdig _ _⟩
  · simp only [format_d, hx, if_false]
    exact hdig _ _

/-- Every execution of `gotemp_probe` returns, and when it returns 0 the
session it has published is zero-initialised but for the fields set from
an endpoint `ep`: its `temperature` is 0. -/
theorem gotemp_probe_published (K : Platform) (env : probe_env)
    (eps : List usb_endpoint_descriptor) :
    ∃ r, gotemp_probe K env eps = some r
      ∧ (r.retval = 0 → ∃ ep, r.intfdata = some (session_at ep true)) := by
  have hm := K.ENOMEM_pos
  have hd := K.ENODEV_pos
  cases hg : env.kzalloc_gdev with
  | false =>
    have h : gotemp_probe K env eps
        = some (probe_error (-K.ENOMEM) none [Call.kzalloc_gdev false]) := by
      simp [gotemp_probe, hg]
    refine ⟨_, h, fun h0 => ?_⟩
    simp only [probe_error] at h0
    omega
  | true =>
    cases hfind : eps.find? usb_endpoint_is_int_in with
    | none =>
      have hno : ∀ ep ∈ eps, usb_endpoint_is_int_in ep = false := by
        intro ep hep
        simpa using List.find?_eq_none.mp hfind ep hep
      refine ⟨_, gotemp_probe_no_int_in K env eps hg hno, fun h0 => ?_⟩
      simp only at h0
      omega
    | some ep =>
      have hne : ep.bEndpointAddress ≠ 0 := int_in_address_ne_zero ep (List.find?_some hfind)
      have hf := find_endpoint_some env eps ep hfind
        { gdev := { udev := true, temperature := 0, int_in_buffer := none,
                    int_in_endpointAddr := 0, int_in_urb := false },
          endpoint := none, buffer_size := 0,
          calls := [Call.kzalloc_gdev true, Call.usb_get_dev] }
      cases hb : env.kmalloc_buffer with
      | false =>
        rw [hb] at hf
        have h : gotemp_probe K env eps
            = some (probe_error (-K.ENOMEM)
                (some { udev := true, temperature := 0, int_in_buffer := none,
                        int_in_endpointAddr := ep.bEndpointAddress, int_in_urb := false })
                [Call.kzalloc_gdev true, Call.usb_get_dev,
                  Call.kmalloc_buffer (le16_to_cpu ep.wMaxPacketSize) false]) := by
          simp [gotemp_probe, hg, hf]
        refine ⟨_, h, fun h0 => ?_⟩
        simp only [probe_error] at h0
        omega
      | true =>
        cases hu : env.usb_alloc_urb with
        | false =>
          rw [hb] at hf
          have h : gotemp_probe K env eps
              = some (probe_error (-K.ENOMEM) (some (session_at ep false))
                  [Call.kzalloc_gdev true, Call.usb_get_dev,
                    Call.kmalloc_buffer (le16_to_cpu ep.wMaxPacketSize) true,
                    Call.usb_alloc_urb false]) := by
            simp [gotemp_probe, hg, hf, hne, hu, session_at]
          refine ⟨_, h, fun h0 => ?_⟩
          simp only [probe_error] at h0
          omega
        | true =>
          refine ⟨_, gotemp_probe_int_in K env eps ep hg hb hu hfind, fun h0 => ?_⟩
          by_cases hc : env.device_create_file = 0
          · exact ⟨ep, by simp [hc]⟩
          · simp [hc] at h0

/-- The text and return value of `show_temp` depend on `temperature` only. -/
theorem show_temp_of_temperature (gdev : gotemp) (t : Int) (h : gdev.temperature = t) :
    show_temp (some gdev) = show_temp (some ⟨true, t, none, 0, false⟩) := by
  subst h
  rfl

/-! ## Claims -/

/-- C1: a completion with status 0 on a receive buffer `b0, b1, b2, b3, ...`
sets `temperature` to `b2 + 256 * b3`, whatever the session state, the
bytes `b0`, `b1`, the bytes after `b3` and the reported transfer length are,
the reported length not exceeding the length of the buffer, and changes
no other field; and in every run of completions with status 0 whose
buffers hold the first slot and the bytes reported, the temperature after
the k-th completion is the first slot of the k-th report. -/
theorem read_int_callback_publishes_first_slot (K : Platform) :
    (∀ (gdev : gotemp) (b0 b1 b2 b3 : u8) (rest : List u8) (len : Nat) (submit_ret : Int),
      len ≤ (b0 :: b1 :: b2 :: b3 :: rest).length →
      read_int_callback K gdev ⟨0, len, b0 :: b1 :: b2 :: b3 :: rest⟩ submit_ret
        = some ({ gdev with temperature := (b2.val : Int) + 256 * (b3.val : Int) },
            [Call.usb_submit_urb submit_ret]))
    ∧ (∀ (cs : List (urb × Int)) (gdev : gotemp),
        (∀ c ∈ cs, c.1.status = 0 ∧ 4 ≤ c.1.transfer_buffer.length
          ∧ c.1.actual_length ≤ c.1.transfer_buffer.length) →
        temperatures_after K gdev cs
          = some (cs.map fun c => ((c.1.transfer_buffer.getD 2 0).val : Int)
              + 256 * ((c.1.transfer_buffer.getD 3 0).val : Int))) := by
  refine ⟨read_int_callback_success K, ?_⟩
  intro cs
  induction cs with
  | nil => intro gdev _; rfl
  | cons c cs ih =>
    intro gdev h
    obtain ⟨u, submit_ret⟩ := c
    obtain ⟨status, len, buf⟩ := u
    have hc := h (⟨status, len, buf⟩, submit_ret) (List.mem_cons_self _ _)
    simp only at hc
    obtain ⟨hs, hl, hlen⟩ := hc
    subst hs
    match buf, hl, hlen with
    | b0 :: b1 :: b2 :: b3 :: rest, _, hlen =>
      have ih1 := ih { gdev with temperature := (b2.val : Int) + 256 * (b3.val : Int) }
        (fun c hc => h c (List.mem_cons_of_mem _ hc))
      simp only [temperatures_after,
        read_int_callback_success K gdev b0 b1 b2 b3 rest len submit_ret hlen, ih1]
      simp

/-- Witness of C1: the reports 205, 210 and 198, the last one with only 6
of its 8 bytes reported, give these three temperatures in this order. -/
theorem read_int_callback_publishes_first_slot_witness :
    temperatures_after linux64 ⟨true, 0, some 8, 0x81, true⟩
      [(⟨0, 8, report 1 7 205⟩, 0), (⟨0, 8, report 1 8 210⟩, 0), (⟨0, 6, report 3 9 198⟩, -12)]
      = some [205, 210, 198] :=
  ((read_int_callback_publishes_first_slot linux64).2
    [(⟨0, 8, report 1 7 205⟩, 0), (⟨0, 8, report 1 8 210⟩, 0), (⟨0, 6, report 3 9 198⟩, -12)]
    ⟨true, 0, some 8, 0x81, true⟩ (by decide)).trans (by decide)

/-- C2 (code defect): when `usb_control_msg` reports that 0 bytes were
transferred, `send_cmd` returns 0, the value it returns for a complete
transfer of 8 bytes, although 0 is not the length of the packet. -/
theorem send_cmd_zero_bytes_returns_success (K : Platform) (cmd : u8) :
    is_int 0 ∧ (0 : Int) ≠ 8 ∧ (send_cmd K true 0 cmd).1 = 0
      ∧ (send_cmd K true 8 cmd).1 = 0 := by
  have h0 : is_int 0 := by unfold is_int; norm_num
  have h8 : is_int 8 := by unfold is_int; norm_num
  refine ⟨h0, by decide, ?_, ?_⟩
  · rw [send_cmd_retval K 0 h0 cmd]; simp
  · rw [send_cmd_retval K 8 h8 cmd]; simp

/-- C3: `read_int_callback` submits the receive request exactly once when
the completion status is none of `-ECONNRESET`, `-ENOENT`, `-ESHUTDOWN`
(status 0 and every other error alike), and makes no call at all when the
status is one of these three.  For status 0 the transfer buffer holds the
first slot and the bytes reported, the memory the handler then reads. -/
theorem read_int_callback_resubmits (K : Platform) (gdev : gotemp) (u : urb) (submit_ret : Int)
    (hbuf : u.status = 0 →
      4 ≤ u.transfer_buffer.length ∧ u.actual_length ≤ u.transfer_buffer.length) :
    ∃ gdev1 calls, read_int_callback K gdev u submit_ret = some (gdev1, calls)
      ∧ (¬ (u.status = -K.ECONNRESET ∨ u.status = -K.ENOENT ∨ u.status = -K.ESHUTDOWN) →
          calls = [Call.usb_submit_urb submit_ret] ∧ submissions calls = 1)
      ∧ ((u.status = -K.ECONNRESET ∨ u.status = -K.ENOENT ∨ u.status = -K.ESHUTDOWN) →
          calls = [] ∧ submissions calls = 0) := by
  obtain ⟨status, len, buf⟩ := u
  by_cases hs : status = 0
  · subst hs
    obtain ⟨hl, hlen⟩ := hbuf rfl
    have h1 := K.ECONNRESET_pos
    have h2 := K.ENOENT_pos
    have h3 := K.ESHUTDOWN_pos
    match buf, hl, hlen with
    | b0 :: b1 :: b2 :: b3 :: rest, _, hlen =>
      refine ⟨_, _, read_int_callback_success K gdev b0 b1 b2 b3 rest len submit_ret hlen,
        ?_, ?_⟩
      · intro _; exact ⟨rfl, rfl⟩
      · intro h; simp only at h; omega
  · by_cases hsh : status = -K.ECONNRESET ∨ status = -K.ENOENT ∨ status = -K.ESHUTDOWN
    · refine ⟨gdev, [], ?_, ?_, ?_⟩
      · simp [read_int_callback, hs, hsh]
      · intro h; exact absurd hsh h
      · intro _; exact ⟨rfl, rfl⟩
    · refine ⟨gdev, [Call.usb_submit_urb submit_ret], ?_, ?_, ?_⟩
      · simp only [read_int_callback, if_neg hs, if_neg hsh]
      · intro _; exact ⟨rfl, rfl⟩
      · intro h; exact absurd h hsh

/-- Witness of C3 at a successful completion. -/
theorem read_int_callback_resubmits_witness :
    ∃ gdev1 calls,
      read_int_callback linux64 ⟨true, 0, some 8, 0x81, true⟩ ⟨0, 8, report 1 7 205⟩ 0
        = some (gdev1, calls)
      ∧ (¬ ((0 : Int) = -linux64.ECONNRESET ∨ (0 : Int) = -linux64.ENOENT
            ∨ (0 : Int) = -linux64.ESHUTDOWN) →
          calls = [Call.usb_submit_urb 0] ∧ submissions calls = 1)
      ∧ (((0 : Int) = -linux64.ECONNRESET ∨ (0 : Int) = -linux64.ENOENT
            ∨ (0 : Int) = -linux64.ESHUTDOWN) →
          calls = [] ∧ submissions calls = 0) :=
  read_int_callback_resubmits linux64 ⟨true, 0, some 8, 0x81, true⟩ ⟨0, 8, report 1 7 205⟩ 0
    (fun _ => by decide)

/-- C4: a completion whose status is not 0 leaves the whole session state,
`temperature` included, as it was, whatever the receive buffer holds. -/
theorem read_int_callback_error_keeps_session (K : Platform) (gdev : gotemp) (u : urb)
    (submit_ret : Int) (hs : u.status ≠ 0) :
    ∃ calls, read_int_callback K gdev u submit_ret = some (gdev, calls) := by
  unfold read_int_callback
  rw [if_neg hs]
  split
  · exact ⟨_, rfl⟩
  · exact ⟨_, rfl⟩

/-- Witness of C4 at the status `-EPIPE` (`-32`). -/
theorem read_int_callback_error_keeps_session_witness :
    (⟨-32, 0, []⟩ : urb).status ≠ 0
      ∧ ∃ calls, read_int_callback linux64 ⟨true, 205, some 8, 0x81, true⟩ ⟨-32, 0, []⟩ 0
          = some (⟨true, 205, some 8, 0x81, true⟩, calls) :=
  ⟨by decide, read_int_callback_error_keeps_session linux64 _ _ 0 (by decide)⟩

/-- C5: the packet which `send_cmd` hands to `usb_control_msg` has 8 bytes,
the command identifier in byte 0 and zero in bytes 1 to 7, and it is given
with the length 8; this holds for every command identifier and every
result of the transfer, for `send_cmd` of the final driver and for the one
of step 5 whatever the allocated memory held. -/
theorem send_cmd_packet (K : Platform) (r : Int) (cmd : u8) (garbage : output_packet) :
    control_packets (send_cmd K true r cmd).2 = [([cmd, 0, 0, 0, 0, 0, 0, 0], 8)]
      ∧ control_packets (step5_send_cmd K true garbage r cmd).2
          = [([cmd, 0, 0, 0, 0, 0, 0, 0], 8)] := by
  constructor <;>
    simp [send_cmd, step5_send_cmd, control_packets, output_packet.bytes,
      zeroed_output_packet, sizeof_output_packet, List.ofFn_succ]

/-- C6 (code defect): on each of its four failure paths after `usb_get_dev`
(no interrupt-IN endpoint, receive buffer not allocated, request not
allocated, attribute not created) `gotemp_probe` returns an error and leaves
the reference count of the device one above its value `n` before the bind:
the label `error:` has no `usb_put_dev`, which `gotemp_disconnect` has. -/
theorem gotemp_probe_failure_keeps_device_reference (n : Int) :
    (gotemp_probe linux64 all_succeed [bulk_out_endpoint]).map
        (fun r => (r.retval, device_refcount n r.calls)) = some (-19, n + 1)
    ∧ (gotemp_probe linux64 { all_succeed with kmalloc_buffer := false } [int_in_endpoint]).map
        (fun r => (r.retval, device_refcount n r.calls)) = some (-12, n + 1)
    ∧ (gotemp_probe linux64 { all_succeed with usb_alloc_urb := false } [int_in_endpoint]).map
        (fun r => (r.retval, device_refcount n r.calls)) = some (-12, n + 1)
    ∧ (gotemp_probe linux64 { all_succeed with device_create_file := -12 } [int_in_endpoint]).map
        (fun r => (r.retval, device_refcount n r.calls)) = some (-12, n + 1)
    ∧ (gotemp_disconnect (some (session_at int_in_endpoint true))).map (device_refcount n)
        = some (n - 1) := by
  refine ⟨?_, ?_, ?_, ?_, ?_⟩ <;> rfl

/-- C7 (code defect): a bind in which the receive request is submitted with
success and `device_create_file` then fails frees the receive buffer at the
label `error:` with `usb_free_urb` and `kfree` and without `usb_kill_urb`, so
while the submitted request is still pending. -/
theorem gotemp_probe_failure_frees_pending_buffer :
    (gotemp_probe linux64 { all_succeed with device_create_file := -12 } [int_in_endpoint]).map
        (fun r => (r.retval, r.calls, frees_buffer_while_pending false r.calls))
      = some (-12,
          [Call.kzalloc_gdev true, Call.usb_get_dev, Call.kmalloc_buffer 8 true,
            Call.usb_alloc_urb true, Call.usb_fill_int_urb 0x81 8 10,
            Call.usb_set_intfdata true,
            Call.kmalloc_pkt 8 true,
            Call.usb_control_msg 0 0x09 0x21 0x0200 0x0000 [0x1A, 0, 0, 0, 0, 0, 0, 0] 8 10000 8,
            Call.kfree_pkt,
            Call.msleep 1000, Call.usb_submit_urb 0, Call.msleep 3000,
            Call.kmalloc_pkt 8 true,
            Call.usb_control_msg 0 0x09 0x21 0x0200 0x0000 [0x18, 0, 0, 0, 0, 0, 0, 0] 8 10000 8,
            Call.kfree_pkt,
            Call.device_create_file (-12),
            Call.usb_set_intfdata false, Call.usb_free_urb true, Call.kfree_buffer true,
            Call.kfree_gdev true],
          true) := by
  decide

/-- C8: when the three allocations of `gotemp_probe` succeed, then on an
interface without interrupt-IN endpoint it returns `-ENODEV` and neither
allocates a buffer nor prepares a request; on any other interface it takes
the first interrupt-IN endpoint in descriptor order, allocates a receive
buffer of that endpoint's `wMaxPacketSize`, fills the request with that
endpoint's address, that buffer length and that endpoint's `bInterval`, and
returns what `device_create_file` returns.  So it fails with `-ENODEV`
before any receive buffer is allocated exactly when the interface has no
interrupt-IN endpoint. -/
theorem gotemp_probe_selects_first_int_in (K : Platform) (env : probe_env)
    (eps : List usb_endpoint_descriptor)
    (hg : env.kzalloc_gdev = true) (hb : env.kmalloc_buffer = true)
    (hu : env.usb_alloc_urb = true) :
    ∃ r, gotemp_probe K env eps = some r
      ∧ ((∀ ep ∈ eps, usb_endpoint_is_int_in ep = false) →
          r.retval = -K.ENODEV ∧ buffer_allocations r.calls = [] ∧ filled_requests r.calls = [])
      ∧ (∀ ep, eps.find? usb_endpoint_is_int_in = some ep →
          r.retval = env.device_create_file
          ∧ buffer_allocations r.calls = [le16_to_cpu ep.wMaxPacketSize]
          ∧ filled_requests r.calls
              = [(ep.bEndpointAddress, le16_to_cpu ep.wMaxPacketSize, ep.bInterval)])
      ∧ ((r.retval = -K.ENODEV ∧ buffer_allocations r.calls = [])
          ↔ ∀ ep ∈ eps, usb_endpoint_is_int_in ep = false) := by
  cases hfind : eps.find? usb_endpoint_is_int_in with
  | none =>
    have hno : ∀ ep ∈ eps, usb_endpoint_is_int_in ep = false := by
      intro ep hep
      have := List.find?_eq_none.mp hfind ep hep
      simpa using this
    refine ⟨_, gotemp_probe_no_int_in K env eps hg hno, ?_, ?_, ?_⟩
    · intro _; exact ⟨rfl, rfl, rfl⟩
    · intro ep hep; cases hep
    · exact ⟨fun _ => hno, fun _ => ⟨rfl, rfl⟩⟩
  | some ep =>
    have hep : usb_endpoint_is_int_in ep = true := List.find?_some hfind
    have hmem : ep ∈ eps := List.mem_of_find?_eq_some hfind
    have hyes : ¬ ∀ x ∈ eps, usb_endpoint_is_int_in x = false := by
      intro hall
      rw [hall ep hmem] at hep
      cases hep
    have hsel : ∀ r : probe_result,
        r = (if env.device_create_file ≠ 0 then
          ({ retval := env.device_create_file,
             calls := calls_to_init K env ep ++ [Call.device_create_file env.device_create_file,
               Call.usb_set_intfdata false, Call.usb_free_urb true, Call.kfree_buffer true,
               Call.kfree_gdev true],
             intfdata := none } : probe_result)
        else
          { retval := 0,
            calls := calls_to_init K env ep ++ [Call.device_create_file env.device_create_file],
            intfdata := some (session_at ep true) }) →
        r.retval = env.device_create_file
          ∧ buffer_allocations r.calls = [le16_to_cpu ep.wMaxPacketSize]
          ∧ filled_requests r.calls
              = [(ep.bEndpointAddress, le16_to_cpu ep.wMaxPacketSize, ep.bInterval)] := by
      intro r hr
      subst hr
      by_cases hc : env.device_create_file = 0
      · simp [hc, calls_to_init, init_dev, send_cmd, buffer_allocations, filled_requests]
        cases env.init_pkt <;> cases env.start_pkt <;>
          simp [buffer_allocations, filled_requests]
      · simp [hc, calls_to_init, init_dev, send_cmd, buffer_allocations, filled_requests]
        cases env.init_pkt <;> cases env.start_pkt <;>
          simp [buffer_allocations, filled_requests]
    refine ⟨_, gotemp_probe_int_in K env eps ep hg hb hu hfind, ?_, ?_, ?_⟩
    · intro hall; exact absurd hall hyes
    · intro ep1 h1
      cases h1
      exact hsel _ rfl
    · constructor
      · intro h
        have hb1 := (hsel _ rfl).2.1
        rw [hb1] at h
        exact absurd h.2 (by simp)
      · intro h; exact absurd h hyes

/-- Witness of C8: of a bulk-OUT endpoint followed by two interrupt-IN
endpoints the first interrupt-IN endpoint is taken. -/
theorem gotemp_probe_selects_first_int_in_witness :
    ∃ r, gotemp_probe linux64 all_succeed
          [bulk_out_endpoint, int_in_endpoint, other_int_in_endpoint] = some r
      ∧ r.retval = 0 ∧ buffer_allocations r.calls = [8]
      ∧ filled_requests r.calls = [(0x81, 8, 10)] := by
  obtain ⟨r, hr, _, h, _⟩ := gotemp_probe_selects_first_int_in linux64 all_succeed
    [bulk_out_endpoint, int_in_endpoint, other_int_in_endpoint] rfl rfl rfl
  exact ⟨r, hr, h int_in_endpoint (by decide)⟩

/-- Counterexample to C9 as stated: in a bind that reaches initialization
and succeeds, but in which the packet of the INIT command cannot be
allocated, no INIT transfer is made: the visible steps are the submission,
the START_MEASUREMENTS transfer and the creation of the attribute. -/
theorem gotemp_probe_init_transfer_missing :
    (gotemp_probe linux64 { all_succeed with init_pkt := false } [int_in_endpoint]).map
        (fun r => (r.retval, r.intfdata.isSome, visible_steps r.calls))
      = some (0, true, [Step.submit, Step.send (some CMD_ID_START_MEASUREMENTS),
          Step.create_attribute])
    ∧ [Step.submit, Step.send (some CMD_ID_START_MEASUREMENTS), Step.create_attribute]
      ≠ [Step.send (some CMD_ID_INIT), Step.submit,
          Step.send (some CMD_ID_START_MEASUREMENTS), Step.create_attribute] := by
  decide

/-- C9 (amended): in every bind that reaches initialization the visible
steps are, in this order, the INIT transfer (0x1A), the submission of the
receive request, the START_MEASUREMENTS transfer (0x18) and last the
creation of the attribute, where each of the two transfers is made unless
the packet of its command cannot be allocated; the steps and their order
depend on no result of a transfer, of the submission or of the creation,
and the bind returns what `device_create_file` returns, publishing the
session exactly when that is 0. -/
theorem gotemp_probe_initialization_order (K : Platform) (env : probe_env)
    (eps : List usb_endpoint_descriptor) (ep : usb_endpoint_descriptor)
    (hg : env.kzalloc_gdev = true) (hb : env.kmalloc_buffer = true)
    (hu : env.usb_alloc_urb = true)
    (h : eps.find? usb_endpoint_is_int_in = some ep) :
    ∃ r, gotemp_probe K env eps = some r
      ∧ visible_steps r.calls
          = (if env.init_pkt then [Step.send (some CMD_ID_INIT)] else [])
            ++ [Step.submit]
            ++ (if env.start_pkt then [Step.send (some CMD_ID_START_MEASUREMENTS)] else [])
            ++ [Step.create_attribute]
      ∧ r.retval = env.device_create_file
      ∧ (r.intfdata.isSome = true ↔ env.device_create_file = 0) := by
  refine ⟨_, gotemp_probe_int_in K env eps ep hg hb hu h, ?_, ?_, ?_⟩
  · have hsteps : ∀ tail : List Call, visible_steps tail = [] →
        visible_steps (calls_to_init K env ep
          ++ Call.device_create_file env.device_create_file :: tail)
        = (if env.init_pkt then [Step.send (some CMD_ID_INIT)] else [])
            ++ [Step.submit]
            ++ (if env.start_pkt then [Step.send (some CMD_ID_START_MEASUREMENTS)] else [])
            ++ [Step.create_attribute] := by
      intro tail htail
      simp [calls_to_init, init_dev, visible_steps_append, visible_steps_send_cmd, htail,
        visible_steps]
    by_cases hc : env.device_create_file = 0
    · simpa [hc] using hsteps [] rfl
    · simpa [hc] using hsteps [Call.usb_set_intfdata false, Call.usb_free_urb true,
        Call.kfree_buffer true, Call.kfree_gdev true] rfl
  · by_cases hc : env.device_create_file = 0 <;> simp [hc]
  · by_cases hc : env.device_create_file = 0 <;> simp [hc]

/-- Witness of C9 (amended): a bind in which both transfers fail with
`-ETIMEDOUT` (`-110`) and the submission fails with `-ENOMEM` takes the four
steps in order and succeeds. -/
theorem gotemp_probe_initialization_order_witness :
    ∃ r, gotemp_probe linux64
          { all_succeed with init_msg := -110, usb_submit_urb := -12, start_msg := -110 }
          [bulk_out_endpoint, int_in_endpoint] = some r
      ∧ visible_steps r.calls
          = [Step.send (some CMD_ID_INIT), Step.submit,
              Step.send (some CMD_ID_START_MEASUREMENTS), Step.create_attribute]
      ∧ r.retval = 0
      ∧ (r.intfdata.isSome = true ↔ (0 : Int) = 0) :=
  gotemp_probe_initialization_order linux64
    { all_succeed with init_msg := -110, usb_submit_urb := -12, start_msg := -110 }
    [bulk_out_endpoint, int_in_endpoint] int_in_endpoint rfl rfl rfl (by decide)

/-- C10: `gotemp_disconnect` removes the attribute first, then clears the
published session, both before it cancels and drains the receive request
with `usb_kill_urb`, and it frees the receive buffer and the session state
only after that; each of these calls is made exactly once. -/
theorem gotemp_disconnect_order (gdev : gotemp) :
    ∃ t, gotemp_disconnect (some gdev) = some t
      ∧ t.head? = some Call.device_remove_file
      ∧ once_before Call.device_remove_file (Call.usb_set_intfdata false) t = true
      ∧ once_before (Call.usb_set_intfdata false) (Call.usb_kill_urb gdev.int_in_urb) t = true
      ∧ once_before Call.device_remove_file (Call.usb_kill_urb gdev.int_in_urb) t = true
      ∧ once_before (Call.usb_kill_urb gdev.int_in_urb)
          (Call.kfree_buffer gdev.int_in_buffer.isSome) t = true
      ∧ once_before (Call.usb_kill_urb gdev.int_in_urb) (Call.kfree_gdev true) t = true
      ∧ t = [Call.device_remove_file, Call.usb_set_intfdata false, Call.usb_put_dev,
          Call.usb_kill_urb gdev.int_in_urb, Call.usb_free_urb gdev.int_in_urb,
          Call.kfree_buffer gdev.int_in_buffer.isSome, Call.kfree_gdev true] := by
  obtain ⟨h1, h2, h3, h4, h5⟩ :=
    disconnect_trace_order gdev.int_in_urb gdev.int_in_buffer.isSome
  exact ⟨_, rfl, rfl, h1, h2, h3, h4, h5, rfl⟩

/-- C11: for every session `show_temp` writes the decimal string of
`temperature` (the digits that denote it, without leading zero, after a
minus sign exactly when it is negative) followed by one newline, and
returns the length of the text written; a session just published by a
successful `gotemp_probe` reads `0` and a newline, with return value 2,
and after a successful completion whose first slot is 225 (on a buffer
that holds the bytes reported) the session reads `225` and a newline, with
return value 4. -/
theorem show_temp_decimal_text :
    (∀ gdev : gotemp, ∃ digits : List Char,
        show_temp (some gdev)
          = some (String.mk (digits ++ [Char.ofNat 10]),
              ((String.mk (digits ++ [Char.ofNat 10])).length : Int))
        ∧ decimal_value digits = some gdev.temperature
        ∧ no_leading_zero digits = true
        ∧ (digits.head? = some (Char.ofNat 45) ↔ gdev.temperature < 0)
        ∧ Char.ofNat 10 ∉ digits)
    ∧ (∀ (K : Platform) (env : probe_env) (eps : List usb_endpoint_descriptor),
        ∃ r, gotemp_probe K env eps = some r
          ∧ (r.retval = 0 → show_temp r.intfdata = some ("0\n", 2)))
    ∧ (∀ (K : Platform) (gdev : gotemp) (b0 b1 : u8) (rest : List u8) (len : Nat)
        (submit_ret : Int),
        len ≤ (b0 :: b1 :: (225 : u8) :: (0 : u8) :: rest).length →
        ∃ g1 calls,
          read_int_callback K gdev ⟨0, len, b0 :: b1 :: 225 :: 0 :: rest⟩ submit_ret
            = some (g1, calls)
          ∧ show_temp (some g1) = some ("225\n", 4)) := by
  refine ⟨fun gdev => ?_, fun K env eps => ?_,
    fun K gdev b0 b1 rest len submit_ret hlen => ?_⟩
  · obtain ⟨h1, h2, h3⟩ := format_d_decimal gdev.temperature
    exact ⟨format_d gdev.temperature, rfl, h1, h2, h3, format_d_no_newline gdev.temperature⟩
  · obtain ⟨r, hr, hpub⟩ := gotemp_probe_published K env eps
    refine ⟨r, hr, fun h0 => ?_⟩
    obtain ⟨ep, hep⟩ := hpub h0
    rw [hep, show_temp_of_temperature (session_at ep true) 0 rfl]
    decide
  · refine ⟨_, _, read_int_callback_success K gdev b0 b1 225 0 rest len submit_ret hlen, ?_⟩
    have h225 : (((225 : u8).val : Int) + 256 * ((0 : u8).val : Int)) = 225 := by decide
    rw [show_temp_of_temperature _ 225 h225]
    decide

/-- Witness of C11: a bind of the device with one interrupt-IN endpoint of
packet size 8 succeeds and its session reads `0`; after the completion of
a report whose first slot is 225 it reads `225`. -/
theorem show_temp_decimal_text_witness :
    (∃ r, gotemp_probe linux64 all_succeed [int_in_endpoint] = some r
        ∧ r.retval = 0 ∧ show_temp r.intfdata = some ("0\n", 2))
    ∧ (∃ g1 calls,
        read_int_callback linux64 (session_at int_in_endpoint true) ⟨0, 8, report 1 7 225⟩ 0
          = some (g1, calls)
        ∧ show_temp (some g1) = some ("225\n", 4)) := by
  constructor
  · obtain ⟨r, hr, h⟩ := show_temp_decimal_text.2.1 linux64 all_succeed [int_in_endpoint]
    have h0 : (gotemp_probe linux64 all_succeed [int_in_endpoint]).map (fun r => r.retval)
        = some 0 := by decide
    rw [hr] at h0
    have h1 : r.retval = 0 := by simpa using h0
    exact ⟨r, hr, h1, h h1⟩
  · exact show_temp_decimal_text.2.2 linux64 (session_at int_in_endpoint true) 1 7 [0, 0, 0, 0]
      8 0 (by decide)

/-- C12: after a completion with status 0, whatever the receive buffer
holds (the first slot and the bytes reported lying in it), `temperature`
lies between 0 and 65535, so the text that `show_temp` then writes does not
start with a minus sign; a first slot of bytes 0xFF, 0xFF is published as
65535. -/
theorem read_int_callback_temperature_range (K : Platform) (gdev : gotemp)
    (b0 b1 b2 b3 : u8) (rest : List u8) (len : Nat) (submit_ret : Int)
    (hlen : len ≤ (b0 :: b1 :: b2 :: b3 :: rest).length) :
    ∃ g1 calls,
      read_int_callback K gdev ⟨0, len, b0 :: b1 :: b2 :: b3 :: rest⟩ submit_ret
        = some (g1, calls)
      ∧ 0 ≤ g1.temperature ∧ g1.temperature ≤ 65535
      ∧ (∃ text ret, show_temp (some g1) = some (text, ret)
          ∧ text.data.head? ≠ some (Char.ofNat 45))
      ∧ read_int_callback K gdev ⟨0, len, b0 :: b1 :: 0xFF :: 0xFF :: rest⟩ submit_ret
          = some ({ gdev with temperature := 65535 }, [Call.usb_submit_urb submit_ret]) := by
  have h2 := b2.isLt
  have h3 := b3.isLt
  have hlo : (0 : Int) ≤ (b2.val : Int) + 256 * (b3.val : Int) := by omega
  have hhi : (b2.val : Int) + 256 * (b3.val : Int) ≤ 65535 := by omega
  refine ⟨_, _, read_int_callback_success K gdev b0 b1 b2 b3 rest len submit_ret hlen, hlo, hhi,
    ⟨_, _, rfl, ?_⟩, ?_⟩
  · have hsign := (format_d_decimal ((b2.val : Int) + 256 * (b3.val : Int))).2.2
    have hnot : (format_d ((b2.val : Int) + 256 * (b3.val : Int))).head?
        ≠ some (Char.ofNat 45) := fun h => absurd (hsign.mp h) (by omega)
    show (format_d ((b2.val : Int) + 256 * (b3.val : Int)) ++ [Char.ofNat 10]).head?
      ≠ some (Char.ofNat 45)
    cases hf : format_d ((b2.val : Int) + 256 * (b3.val : Int)) with
    | nil => decide
    | cons c cs =>
      rw [hf] at hnot
      simpa using hnot
  · exact read_int_callback_success K gdev b0 b1 0xFF 0xFF rest len submit_ret hlen

/-- Witness of C12: a report whose first slot holds the bytes 0xFF, 0xFF. -/
theorem read_int_callback_temperature_range_witness :
    ∃ g1 calls,
      read_int_callback linux64 (session_at int_in_endpoint true)
          ⟨0, 8, 1 :: 7 :: 0xFF :: 0xFF :: [0, 0, 0, 0]⟩ 0
        = some (g1, calls)
      ∧ 0 ≤ g1.temperature ∧ g1.temperature ≤ 65535
      ∧ (∃ text ret, show_temp (some g1) = some (text, ret)
          ∧ text.data.head? ≠ some (Char.ofNat 45))
      ∧ read_int_callback linux64 (session_at int_in_endpoint true)
          ⟨0, 8, 1 :: 7 :: 0xFF :: 0xFF :: [0, 0, 0, 0]⟩ 0
          = some ({ session_at int_in_endpoint true with temperature := 65535 },
              [Call.usb_submit_urb 0]) :=
  read_int_callback_temperature_range linux64 (session_at int_in_endpoint true) 1 7 0xFF 0xFF
    [0, 0, 0, 0] 8 0 (by decide)

end GoTemp
